import Mathlib

/-!
# Verification of `lhotse/features/opensmile.py`

A shallow embedding of the OpenSmile feature-extractor adapter:
the `OpenSmileConfig` dataclass (with its `to_dict` / `from_dict` /
`featuresets_names` operations) and the `OpenSmileWrapper` extractor
(`__init__`, `frame_shift`, `feature_dim`, `feature_names`, `extract`).

Python is dynamically typed, so dataclass field values are embedded as an
untyped `Value` sum; the external `opensmile` engine is modelled as an
uninterpreted bundle of functions, and fallible operations (assertions,
`TypeError` on bad keyword arguments) return `Except String`.
-/

/-- Untyped Python values, as far as the adapter's fields need them:
`None`, ints, strings, booleans, flat int sequences (for `channels`),
and flat string-to-string dicts (for `options`). -/
inductive Value where
  | vnone
  | vint (n : Int)
  | vstr (s : String)
  | vbool (b : Bool)
  | vints (ns : List Int)
  | vpairs (ps : List (String × String))
deriving DecidableEq, Repr

/-- `lhotse.utils.Seconds`; only the literal `0` is ever produced here. -/
abbrev Seconds := Int

/-- The `@dataclass OpenSmileConfig` (source lines 9-33): eleven fields,
every one carrying a default. Field values are untyped `Value`s, matching
Python's dynamic typing; the defaults are the dataclass defaults. -/
structure OpenSmileConfig where
  feature_set : Value := Value.vstr "ComParE_2016"
  feature_level : Value := Value.vstr "lld"
  options : Value := Value.vnone
  loglevel : Value := Value.vint 2
  logfile : Value := Value.vnone
  sampling_rate : Value := Value.vint 16000
  channels : Value := Value.vint 0
  mixdown : Value := Value.vbool false
  resample : Value := Value.vbool false
  num_workers : Value := Value.vint 1
  verbose : Value := Value.vbool false
deriving DecidableEq, Repr

/-- The field names of `OpenSmileConfig`, in declaration order. -/
def configFieldNames : List String :=
  ["feature_set", "feature_level", "options", "loglevel", "logfile",
   "sampling_rate", "channels", "mixdown", "resample", "num_workers",
   "verbose"]

/-- `OpenSmileConfig.to_dict` (source lines 36-37): `dataclasses.asdict`,
a flat dump of every field keyed by its name, in declaration order. -/
def OpenSmileConfig.to_dict (c : OpenSmileConfig) : List (String × Value) :=
  [("feature_set", c.feature_set), ("feature_level", c.feature_level),
   ("options", c.options), ("loglevel", c.loglevel), ("logfile", c.logfile),
   ("sampling_rate", c.sampling_rate), ("channels", c.channels),
   ("mixdown", c.mixdown), ("resample", c.resample),
   ("num_workers", c.num_workers), ("verbose", c.verbose)]

/-- Keyword-argument lookup: the value bound to `key` in `data` if present,
otherwise the dataclass default `dflt`. -/
def lookupVal (data : List (String × Value)) (key : String) (dflt : Value) :
    Value :=
  match data.find? (fun kv => kv.1 == key) with
  | some kv => kv.2
  | none => dflt

/-- `OpenSmileConfig.from_dict` (source lines 39-41):
`OpenSmileConfig(**data)`. A key that is not a dataclass field raises
`TypeError` (unexpected keyword argument); every field absent from `data`
takes its dataclass default, because every field has one. -/
def OpenSmileConfig.from_dict (data : List (String × Value)) :
    Except String OpenSmileConfig :=
  if data.all (fun kv => configFieldNames.contains kv.1) then
    Except.ok
      { feature_set := lookupVal data "feature_set" (Value.vstr "ComParE_2016")
        feature_level := lookupVal data "feature_level" (Value.vstr "lld")
        options := lookupVal data "options" Value.vnone
        loglevel := lookupVal data "loglevel" (Value.vint 2)
        logfile := lookupVal data "logfile" Value.vnone
        sampling_rate := lookupVal data "sampling_rate" (Value.vint 16000)
        channels := lookupVal data "channels" (Value.vint 0)
        mixdown := lookupVal data "mixdown" (Value.vbool false)
        resample := lookupVal data "resample" (Value.vbool false)
        num_workers := lookupVal data "num_workers" (Value.vint 1)
        verbose := lookupVal data "verbose" (Value.vbool false) }
  else
    Except.error "TypeError: __init__ got an unexpected keyword argument"

/-- The assertion message used at both dependency checks
(source lines 48 and 63-65). -/
def installMsg : String :=
  "To use opensmile extractors, please \"pip install opensmile\" first."

/-- `OpenSmileConfig.featuresets_names` (source lines 43-50): asserts that
the `opensmile` module is available (else the install-instruction message),
then imports it and lists `opensmile.FeatureSet.__members__`. Availability
and the member list are parameters of the environment. -/
def OpenSmileConfig.featuresets_names (opensmileAvailable : Bool)
    (featureSetMembers : List String) : Except String (List String) :=
  if opensmileAvailable then Except.ok featureSetMembers
  else Except.error installMsg

/-- Modules imported at the top of `opensmile.py` (source lines 1-7).
`opensmile` itself is not among them: its imports sit inside
`featuresets_names` (line 49) and `OpenSmileWrapper.__init__` (line 66). -/
def moduleLevelImports : List String :=
  ["dataclasses", "typing", "numpy", "lhotse.features.base", "lhotse.utils"]

/-- The external `opensmile.Smile` engine instance, uninterpreted: its
`process_signal` call (taking the sample buffer and the sampling rate),
the `.to_numpy()` conversion of its tabular result, and its
`feature_names()` listing. -/
structure SmileEngine (Samples DF NDArray : Type) where
  process_signal : Samples → Value → DF
  to_numpy : DF → NDArray
  feature_names : List String

/-- An `OpenSmileWrapper` in the ready state (source lines 54-79): the
configuration it was built from and the single engine instance built at
construction time. -/
structure OpenSmileWrapper (Samples DF NDArray : Type) where
  config : OpenSmileConfig
  smileExtractor : SmileEngine Samples DF NDArray

/-- `OpenSmileWrapper.__init__` (source lines 61-79): asserts that the
`opensmile` module is available (else the install-instruction message),
imports it, and constructs the engine once by forwarding every
configuration field to `opensmile.Smile`; `smile` is the uninterpreted
`opensmile.Smile` constructor. -/
def OpenSmileWrapper.construct {Samples DF NDArray : Type}
    (opensmileAvailable : Bool) (config : OpenSmileConfig)
    (smile : OpenSmileConfig → SmileEngine Samples DF NDArray) :
    Except String (OpenSmileWrapper Samples DF NDArray) :=
  if opensmileAvailable then
    Except.ok { config := config, smileExtractor := smile config }
  else Except.error installMsg

/-- `OpenSmileWrapper.frame_shift` (source lines 81-84): a TODO stub,
`return 0`. -/
def OpenSmileWrapper.frame_shift {Samples DF NDArray : Type}
    (_w : OpenSmileWrapper Samples DF NDArray) : Seconds := 0

/-- `OpenSmileWrapper.feature_dim` (source lines 86-88): a TODO stub,
`return 0`, ignoring both configuration and argument. -/
def OpenSmileWrapper.feature_dim {Samples DF NDArray : Type}
    (_w : OpenSmileWrapper Samples DF NDArray) (_sampling_rate : Value) :
    Int := 0

/-- `OpenSmileWrapper.feature_names` (source lines 90-91): forwards to
`self.smileExtractor.feature_names()`. -/
def OpenSmileWrapper.feature_names {Samples DF NDArray : Type}
    (w : OpenSmileWrapper Samples DF NDArray) : List String :=
  w.smileExtractor.feature_names

/-- `OpenSmileWrapper.extract` (source lines 93-95): asserts
`sampling_rate == self.config.sampling_rate` (an `AssertionError` on
mismatch), then returns
`self.smileExtractor.process_signal(samples, sampling_rate).to_numpy()`. -/
def OpenSmileWrapper.extract {Samples DF NDArray : Type}
    (w : OpenSmileWrapper Samples DF NDArray) (samples : Samples)
    (sampling_rate : Value) : Except String NDArray :=
  if sampling_rate = w.config.sampling_rate then
    Except.ok
      (w.smileExtractor.to_numpy
        (w.smileExtractor.process_signal samples sampling_rate))
  else Except.error "AssertionError"

/-- `register_extractor` binds an extractor's `name` class attribute to its
`config_type` class attribute in the framework registry. -/
structure ExtractorEntry where
  name : String
  configTypeName : String
deriving DecidableEq, Repr

/-- Modelled from the spec: `register_extractor` from `lhotse.features.base`
is not among the sources; per the spec the decorator enters the adapter in
"a shared extractor registry exposed by the surrounding framework" under
its symbolic name "plus a configuration-type binding". We model it as
prepending the (name, config-type) entry to the registry. -/
def register_extractor (registry : List ExtractorEntry) (e : ExtractorEntry) :
    List ExtractorEntry := e :: registry

/-- The class attributes of `OpenSmileWrapper` (source lines 57-58):
`name = "opensmile-wrapper"`, `config_type = OpenSmileConfig`. -/
def openSmileWrapperEntry : ExtractorEntry :=
  { name := "opensmile-wrapper", configTypeName := "OpenSmileConfig" }

/-- The registry after this module loads: `@register_extractor` applied to
`OpenSmileWrapper` (source line 53), starting from a registry without it. -/
def moduleRegistry : List ExtractorEntry :=
  register_extractor [] openSmileWrapperEntry

/-- Resolve an extractor by symbolic name in a registry. -/
def resolveExtractor (registry : List ExtractorEntry) (n : String) :
    Option ExtractorEntry :=
  registry.find? (fun e => e.name == n)

/-- A concrete engine instance, used to witness the theorems below. -/
def natEngine : SmileEngine Nat Nat Nat :=
  { process_signal := fun s _ => s + 1
    to_numpy := fun d => 2 * d
    feature_names := ["F0", "loudness"] }

/-- A ready wrapper over `natEngine` with the default configuration
(`sampling_rate = 16000`). -/
def natWrapper : OpenSmileWrapper Nat Nat Nat :=
  { config := {}, smileExtractor := natEngine }

/-- A ready wrapper over `natEngine` whose configuration has
`sampling_rate = None`. -/
def natWrapperNoRate : OpenSmileWrapper Nat Nat Nat :=
  { config := { sampling_rate := Value.vnone }, smileExtractor := natEngine }

/-- C1: for an adapter whose configuration carries a configured (integer)
`sampling_rate`, `extract` fails by assertion exactly when the
`sampling_rate` argument differs from the configured value; no coercion
or resampling happens. -/
theorem extract_fails_iff_rate_mismatch {S D N : Type}
    (w : OpenSmileWrapper S D N) (samples : S) (sampling_rate : Value)
    (r : Int) (_h : w.config.sampling_rate = Value.vint r) :
    (w.extract samples sampling_rate).isOk = false ↔
      sampling_rate ≠ w.config.sampling_rate := by
  unfold OpenSmileWrapper.extract
  split <;> rename_i hc
  · exact ⟨fun hfalse => Bool.noConfusion hfalse, fun hne => absurd hc hne⟩
  · exact ⟨fun _ => hc, fun _ => rfl⟩

/-- Witness for C1 at the default configuration and a mismatched rate. -/
theorem extract_fails_iff_rate_mismatch_witness :
    (natWrapper.extract 5 (Value.vint 8000)).isOk = false ↔
      Value.vint 8000 ≠ natWrapper.config.sampling_rate :=
  extract_fails_iff_rate_mismatch natWrapper 5 (Value.vint 8000) 16000 rfl

/-- C2: serializing any configuration with `to_dict` and reconstructing
with `from_dict` returns exactly the original record, for every
combination of field values including `None` optional fields. -/
theorem to_dict_from_dict_roundtrip (c : OpenSmileConfig) :
    OpenSmileConfig.from_dict c.to_dict = Except.ok c := rfl

/-- C3: `frame_shift` returns the literal placeholder `0` for every
adapter, whatever its configuration. -/
theorem frame_shift_is_zero {S D N : Type} (w : OpenSmileWrapper S D N) :
    w.frame_shift = 0 := rfl

/-- C4: `feature_dim` returns the literal placeholder `0` for every
adapter and every `sampling_rate` argument. -/
theorem feature_dim_is_zero {S D N : Type} (w : OpenSmileWrapper S D N)
    (sampling_rate : Value) : w.feature_dim sampling_rate = 0 := rfl

/-- C5: when the `opensmile` package is unavailable, both
`featuresets_names` and adapter construction fail with the
install-instruction message, and `opensmile` is not imported at
module-import time (it appears in no module-level import). -/
theorem missing_dependency_checked_lazily :
    "opensmile" ∉ moduleLevelImports ∧
    (∀ members : List String,
      OpenSmileConfig.featuresets_names false members =
        Except.error installMsg) ∧
    (∀ (S D N : Type) (config : OpenSmileConfig)
       (smile : OpenSmileConfig → SmileEngine S D N),
      OpenSmileWrapper.construct false config smile =
        Except.error installMsg) :=
  ⟨by decide, fun _ => rfl, fun _ _ _ _ _ => rfl⟩

/-- C6: for a ready adapter and a `sampling_rate` satisfying the
assertion precondition, `extract` returns exactly the engine's
`process_signal` result converted by `to_numpy`, with no further
processing. -/
theorem extract_forwards_to_engine {S D N : Type}
    (w : OpenSmileWrapper S D N) (samples : S) (sampling_rate : Value)
    (h : sampling_rate = w.config.sampling_rate) :
    w.extract samples sampling_rate =
      Except.ok (w.smileExtractor.to_numpy
        (w.smileExtractor.process_signal samples sampling_rate)) := by
  unfold OpenSmileWrapper.extract
  rw [if_pos h]

/-- Witness for C6 at the default configuration and the matching rate. -/
theorem extract_forwards_to_engine_witness :
    natWrapper.extract 5 (Value.vint 16000) =
      Except.ok (natWrapper.smileExtractor.to_numpy
        (natWrapper.smileExtractor.process_signal 5 (Value.vint 16000))) :=
  extract_forwards_to_engine natWrapper 5 (Value.vint 16000) rfl

/-- C7 counterexample: `from_dict` applied to the empty mapping — which
omits every field — succeeds with the all-defaults record instead of
raising a construction error, so missing keys do not surface as errors. -/
theorem from_dict_missing_keys_ok :
    OpenSmileConfig.from_dict [] = Except.ok {} := rfl

/-- C7 (amended): `from_dict` raises a construction error exactly when the
mapping contains a key that is not a field of the record (extra or
misnamed keys); keys that are merely missing take the field defaults,
since every field has one. -/
theorem from_dict_error_iff_unknown_key (data : List (String × Value)) :
    (OpenSmileConfig.from_dict data).isOk = false ↔
      ∃ kv ∈ data, kv.1 ∉ configFieldNames := by
  unfold OpenSmileConfig.from_dict
  split <;> rename_i h
  · simp only [List.all_eq_true] at h
    constructor
    · intro hc; exact Bool.noConfusion hc
    · rintro ⟨kv, hmem, hnot⟩
      exact absurd (by simpa using h kv hmem) hnot
  · simp only [List.all_eq_true] at h
    push_neg at h
    obtain ⟨kv, hmem, hnot⟩ := h
    exact ⟨fun _ => ⟨kv, hmem, by simpa using hnot⟩, fun _ => rfl⟩

/-- C8: `feature_names` returns exactly the engine instance's own
`feature_names` listing, unchanged. -/
theorem feature_names_forwards {S D N : Type}
    (w : OpenSmileWrapper S D N) :
    w.feature_names = w.smileExtractor.feature_names := rfl

/-- C9: after module load, the extractor registry resolves the fixed name
"opensmile-wrapper" to the adapter entry bound to `OpenSmileConfig`. -/
theorem registered_under_fixed_name :
    resolveExtractor moduleRegistry "opensmile-wrapper" =
      some { name := "opensmile-wrapper",
             configTypeName := "OpenSmileConfig" } := rfl

/-- C10: for an adapter configured with `sampling_rate = None`, `extract`
fails the assertion for every integer `sampling_rate` argument, and
succeeds only when the absent value (`None`) itself is passed. -/
theorem extract_none_rate_rejects_ints {S D N : Type}
    (w : OpenSmileWrapper S D N) (samples : S)
    (h : w.config.sampling_rate = Value.vnone) :
    (∀ n : Int, (w.extract samples (Value.vint n)).isOk = false) ∧
      (w.extract samples Value.vnone).isOk = true := by
  constructor
  · intro n
    unfold OpenSmileWrapper.extract
    rw [if_neg]
    · rfl
    · rw [h]; exact fun hc => Value.noConfusion hc
  · unfold OpenSmileWrapper.extract
    rw [if_pos h.symm]
    rfl

/-- Witness for C10 at a `None`-rate configuration. -/
theorem extract_none_rate_rejects_ints_witness :
    (natWrapperNoRate.extract 5 (Value.vint 16000)).isOk = false ∧
      (natWrapperNoRate.extract 5 Value.vnone).isOk = true :=
  ⟨(extract_none_rate_rejects_ints natWrapperNoRate 5 rfl).1 16000,
   (extract_none_rate_rejects_ints natWrapperNoRate 5 rfl).2⟩
